import Mathlib

/-
Verification of the AirTouch -> New Relic metric exporter
(src/airtouch-nr-metric-exporter.py) against its natural-language
specification.

The single Python source file is shallowly embedded below.  Python objects
become Lean structures; fields that the code reads through `getattr` with a
default, or that can be `None` at runtime, become `Option` fields; Python
exceptions become explicit `Except`/`Option String` error components;
logging calls are modelled as no-ops (they only format strings).  Numeric
temperature/percentage readings are carried as `Rat`: the program never
performs arithmetic on them, it only copies them into samples and
attributes, so any faithful numeric carrier works.
-/

namespace AirtouchExporter

/-- Scalar value stored in a flattened attribute map: the Python code puts
Python ints (ids and 1/0 flags), numbers (temperatures, percentages) and
strings (names, host, enum member names) into the attribute dict. -/
inductive AttrValue where
  | intVal (n : Int)
  | numVal (q : Rat)
  | strVal (s : String)
deriving DecidableEq, Repr

/-- pyairtouch ZonePowerState enum members. -/
inductive ZonePowerState where
  | OFF
  | ON
  | TURBO
deriving DecidableEq, Repr

/-- pyairtouch ZoneControlMethod enum members. -/
inductive ZoneControlMethod where
  | DAMP
  | TEMP
deriving DecidableEq, Repr

/-- Python enum member name, as read by `zone.control_method.name`
(line 130). -/
def ZoneControlMethod.name : ZoneControlMethod → String
  | .DAMP => "DAMP"
  | .TEMP => "TEMP"

/-- pyairtouch AcPowerState enum members. -/
inductive AcPowerState where
  | OFF
  | ON
  | OFF_AWAY
  | ON_AWAY
  | SLEEP
deriving DecidableEq, Repr

/-- Python enum member name, as read by `aircon.power_state.name`
(line 139). -/
def AcPowerState.name : AcPowerState → String
  | .OFF => "OFF"
  | .ON => "ON"
  | .OFF_AWAY => "OFF_AWAY"
  | .ON_AWAY => "ON_AWAY"
  | .SLEEP => "SLEEP"

/-- pyairtouch AcMode enum members. -/
inductive AcMode where
  | AUTO
  | HEAT
  | DRY
  | FAN
  | COOL
deriving DecidableEq, Repr

/-- Python enum member name, as read by `aircon.active_mode.name`
(line 140). -/
def AcMode.name : AcMode → String
  | .AUTO => "AUTO"
  | .HEAT => "HEAT"
  | .DRY => "DRY"
  | .FAN => "FAN"
  | .COOL => "COOL"

/-- pyairtouch AcFanSpeed enum members. -/
inductive AcFanSpeed where
  | AUTO
  | QUIET
  | LOW
  | MEDIUM
  | HIGH
  | POWERFUL
  | TURBO
deriving DecidableEq, Repr

/-- Python enum member name, as read by `aircon.active_fan_speed.name`
(line 141). -/
def AcFanSpeed.name : AcFanSpeed → String
  | .AUTO => "AUTO"
  | .QUIET => "QUIET"
  | .LOW => "LOW"
  | .MEDIUM => "MEDIUM"
  | .HIGH => "HIGH"
  | .POWERFUL => "POWERFUL"
  | .TURBO => "TURBO"

/-- One zone of a sub-unit, as read by the Zone Update Handler.
`name` and `low_battery` are `Option` because the code reads them through
`getattr(zone, ..., default)` (lines 124 and 132), i.e. it allows the
attribute to be absent.  `control_method` is `Option` because it is read
as `zone.control_method.name` (line 130) with no guard: a zone object
whose `control_method` is `None` at runtime makes that access raise
`AttributeError` — this is the per-zone failure channel of the handler. -/
structure Zone where
  zone_id : Nat
  name : Option String
  power_state : ZonePowerState
  control_method : Option ZoneControlMethod
  current_temperature : Option Rat
  target_temperature : Option Rat
  current_damper_percentage : Option Rat
  spill_active : Bool
  low_battery : Option Bool
deriving DecidableEq, Repr

/-- One sub-unit ("air conditioner") of a controller.  `name` is `Option`
because line 122 reads it through `getattr(aircon, "name", ...)`. -/
structure Aircon where
  ac_id : Nat
  name : Option String
  power_state : AcPowerState
  active_mode : AcMode
  active_fan_speed : AcFanSpeed
  current_temperature : Option Rat
  target_temperature : Option Rat
  zones : List Zone
deriving DecidableEq, Repr

/-- One controller handle as returned by discovery. -/
structure AirTouch where
  name : String
  host : String
  air_conditioners : List Aircon
deriving DecidableEq, Repr

/-- Message of the Python `AttributeError` raised by
`zone.control_method.name` when `control_method` is `None`. -/
def attributeErrorMsg : String :=
  "AttributeError: NoneType object has no attribute name"

/-- Message of the Python `IndexError` raised by
`airtouch.air_conditioners[ac_id]` when the index is out of range. -/
def indexErrorMsg : String :=
  "IndexError: list index out of range"

/-- The attribute-building block of `_on_ac_status_updated`, lines 120-145:
the flattened attribute dict for one zone, in insertion order.  Mandatory
entries are always inserted; the four optional entries are inserted only
when the corresponding source field is present (`is not None`).  The only
way this block can raise is the unguarded `zone.control_method.name`
access, modelled as the `Except.error` branch. -/
def builtAttrs (atch : AirTouch) (aircon : Aircon) (zone : Zone)
    (cm : ZoneControlMethod) : List (String × AttrValue) :=
      [ ("airtouch.ac.id", AttrValue.intVal aircon.ac_id),
        ("airtouch.ac.name",
          AttrValue.strVal (aircon.name.getD ("AC-" ++ toString aircon.ac_id))),
        ("airtouch.zone.id", AttrValue.intVal zone.zone_id),
        ("airtouch.zone.name",
          AttrValue.strVal (zone.name.getD ("Zone-" ++ toString zone.zone_id))),
        ("airtouch.host", AttrValue.strVal atch.host),
        ("airtouch.zone.powerState",
          AttrValue.intVal (if zone.power_state = ZonePowerState.ON then 1 else 0)),
        ("airtouch.zone.controlMethod", AttrValue.strVal cm.name),
        ("airtouch.zone.spill",
          AttrValue.intVal (if zone.spill_active then 1 else 0)),
        ("airtouch.zone.lowBattery",
          AttrValue.intVal (if zone.low_battery.getD false then 1 else 0)) ]
      ++ (match zone.target_temperature with
          | some t => [("airtouch.zone.setPoint", AttrValue.numVal t)]
          | none => [])
      ++ (match zone.current_damper_percentage with
          | some p => [("airtouch.zone.openPercentage", AttrValue.numVal p)]
          | none => [])
      ++ [ ("airtouch.aircon.powerState", AttrValue.strVal aircon.power_state.name),
           ("airtouch.aircon.activeMode", AttrValue.strVal aircon.active_mode.name),
           ("airtouch.aircon.activeFanSpeed",
             AttrValue.strVal aircon.active_fan_speed.name) ]
      ++ (match aircon.current_temperature with
          | some t => [("airtouch.aircon.currentTemperature", AttrValue.numVal t)]
          | none => [])
      ++ (match aircon.target_temperature with
          | some t => [("airtouch.aircon.targetTemperature", AttrValue.numVal t)]
          | none => [])

/-- Dispatch on the one failure channel of the attribute-building block:
`zone.control_method.name` (line 130) raises `AttributeError` when the
field is `None`; otherwise the block returns the full dict `builtAttrs`. -/
def buildAttributes (atch : AirTouch) (aircon : Aircon) (zone : Zone) :
    Except String (List (String × AttrValue)) :=
  match zone.control_method with
  | none => .error attributeErrorMsg
  | some cm => .ok (builtAttrs atch aircon zone cm)

/-- One recorded metric sample: `temp_gauge.set(metric_value, attributes)`
(line 149).  The gauge name is the fixed constant `gaugeName`; the
timestamp is implicit. -/
structure Sample where
  value : Rat
  attributes : List (String × AttrValue)
deriving DecidableEq, Repr

/-- The fixed gauge name of line 100. -/
def gaugeName : String := "airtouch.zone.temperature"

/-- One iteration of the zone loop (lines 110-151) for a single zone:
skip (`ok none`) when `current_temperature` is `None` (line 112),
otherwise build the attributes and produce the sample handed to
`temp_gauge.set`.  An exception from the attribute build surfaces as
`error`. -/
def processZone (atch : AirTouch) (aircon : Aircon) (zone : Zone) :
    Except String (Option Sample) :=
  match zone.current_temperature with
  | none => .ok none
  | some t => (buildAttributes atch aircon zone).map (fun attrs => some ⟨t, attrs⟩)

/-- The whole zone loop of `_on_ac_status_updated`: samples are recorded
(gauge set) one by one in zone order; there is no try/except inside the
loop, so the first exception aborts the loop, leaving the samples already
recorded in place (first component) and propagating the exception (second
component). -/
def runZones (atch : AirTouch) (aircon : Aircon) :
    List Zone → List Sample × Option String
  | [] => ([], none)
  | z :: zs =>
    match processZone atch aircon z with
    | .error e => ([], some e)
    | .ok none => runZones atch aircon zs
    | .ok (some s) =>
      let rest := runZones atch aircon zs
      (s :: rest.1, rest.2)

/-- The Zone Update Handler `_on_ac_status_updated` (lines 105-151):
resolve the sub-unit by positional indexing
`airtouch.air_conditioners[ac_id]` (line 107) — an out-of-range index
raises `IndexError` before any zone is processed — then run the zone
loop.  Result: the samples recorded, and the exception that escaped the
handler, if any. -/
def onAcStatusUpdated (atch : AirTouch) (ac_id : Nat) :
    List Sample × Option String :=
  match atch.air_conditioners.get? ac_id with
  | none => ([], some indexErrorMsg)
  | some aircon => runZones atch aircon aircon.zones

/-- Identifier string of line 85: `f"{airtouch.name} ({airtouch.host})"`. -/
def airtouchId (atch : AirTouch) : String :=
  atch.name ++ " (" ++ atch.host ++ ")"

/-- Observable step of one Device Monitor task (`_monitor_airtouch`,
lines 88-158). -/
inductive MonitorEvent where
  | initCall
  | initFailedLog (ident : String)
  | createGauge (name : String)
  | subscribeHandler (acId : Nat)
  | baselineInvoke (acId : Nat) (samples : List Sample)
  | park
deriving DecidableEq, Repr

/-- The subscribe-and-baseline loop of lines 154-156, followed by the
indefinite `asyncio.Event().wait()` of line 158.  Each `await
_on_ac_status_updated(aircon.ac_id)` runs the Zone Update Handler; an
exception escaping the handler propagates out of `_monitor_airtouch`
(second component), aborting the loop before later sub-units are
subscribed and before the park. -/
def monitorLoop (atch : AirTouch) : List Aircon → List MonitorEvent × Option String
  | [] => ([MonitorEvent.park], none)
  | ac :: rest =>
    let r := onAcStatusUpdated atch ac.ac_id
    match r.2 with
    | some e => ([MonitorEvent.subscribeHandler ac.ac_id,
                  MonitorEvent.baselineInvoke ac.ac_id r.1], some e)
    | none =>
      let tail := monitorLoop atch rest
      (MonitorEvent.subscribeHandler ac.ac_id
         :: MonitorEvent.baselineInvoke ac.ac_id r.1 :: tail.1, tail.2)

/-- Trace of one Device Monitor task, `_monitor_airtouch` (lines 88-158),
given the boolean returned by `await airtouch.init()` (line 90): on
failure, log an error naming the controller and return (no retry, no
gauge, no subscription); on success, create this monitor's own gauge
instrument (line 99), then subscribe the handler on every sub-unit and
invoke it once per sub-unit, then park forever. -/
def monitorTrace (atch : AirTouch) (initSuccess : Bool) :
    List MonitorEvent × Option String :=
  if initSuccess then
    let r := monitorLoop atch atch.air_conditioners
    (MonitorEvent.initCall :: MonitorEvent.createGauge gaugeName :: r.1, r.2)
  else
    ([MonitorEvent.initCall, MonitorEvent.initFailedLog (airtouchId atch)], none)

/-- Final status of one task supervised by the `asyncio.TaskGroup` of
line 180. -/
inductive TaskFinal where
  | completed
  | failed
  | cancelled
deriving DecidableEq, Repr

/-- Supervision semantics of `async with asyncio.TaskGroup()` (line 180),
per the documented behaviour of `asyncio.TaskGroup`: tasks are listed in
the order they finish (`true` = returned normally, `false` = raised an
unhandled exception).  Tasks finishing normally before any failure simply
complete; the first task to fail causes the group to cancel every task
still running, so all later-finishing siblings end cancelled. -/
def taskGroupFinal : List Bool → List TaskFinal
  | [] => []
  | true :: rest => TaskFinal.completed :: taskGroupFinal rest
  | false :: rest => TaskFinal.failed :: rest.map (fun _ => TaskFinal.cancelled)

/-- Error message of the `ValueError` raised by `setup_opentelemetry`
(line 40) when the credential is missing. -/
def valueErrorMsg : String :=
  "ValueError: NEW_RELIC_LICENSE_KEY not found in environment variables."

/-- Observable step of `main` (lines 161-182). -/
inductive MainEvent where
  | setupPipelineOk
  | createGaugeEv
  | discoverCall
  | spawnMonitor (idx : Nat)
deriving DecidableEq, Repr

/-- Trace of `main` (lines 161-182) up to the spawning of the monitor
tasks, given whether the credential is present and how many controllers
discovery returns.  `setup_opentelemetry()` is called first (line 164) and
raises `ValueError` when the credential is missing, so in that case no
further statement of `main` runs — in particular `pyairtouch.discover`
(line 171) is never called.  `main` itself never calls `create_gauge`
(that happens inside each monitor task), so no `createGaugeEv` is ever
emitted. -/
def mainTrace (keyPresent : Bool) (deviceCount : Nat) :
    List MainEvent × Option String :=
  if keyPresent then
    ([MainEvent.setupPipelineOk, MainEvent.discoverCall]
       ++ (List.range deviceCount).map MainEvent.spawnMonitor, none)
  else
    ([], some valueErrorMsg)

/-- How the long-running phase of the process ends (only reachable when
the credential is present and at least one device was discovered). -/
inductive RunEnding where
  | interrupt
  | unexpectedError (e : String)
deriving DecidableEq, Repr

/-- Exit status of the process, from the `__main__` block (lines 200-205).
No branch of the script calls `sys.exit` and no exception escapes the
try/except: a missing credential raises `ValueError` inside
`asyncio.run(main(...))`, which is caught by `except Exception` (line 204)
and logged, after which the module falls off its end — exit status 0;
discovery returning zero devices makes `main` return normally (line 174) —
exit status 0; `KeyboardInterrupt`/`CancelledError` is caught at line 202
and a message printed — exit status 0; any other unhandled exception is
caught by `except Exception` and logged — exit status 0. -/
def processExitCode (keyPresent : Bool) (deviceCount : Nat)
    (ending : RunEnding) : Nat :=
  if keyPresent = false then 0
  else if deviceCount = 0 then 0
  else
    match ending with
    | RunEnding.interrupt => 0
    | RunEnding.unexpectedError _ => 0

/-- Well-formedness of the sub-unit ids assumed by the positional lookup
of line 107: every sub-unit identifier equals its position in the
controller's ordered `air_conditioners` sequence. -/
def idsPositional (atch : AirTouch) : Prop :=
  atch.air_conditioners.map Aircon.ac_id = List.range atch.air_conditioners.length

instance (atch : AirTouch) : Decidable (idsPositional atch) := by
  unfold idsPositional
  infer_instance

/-- Written from the specification, for comparison with `builtAttrs`: the
12 mandatory attribute keys of the Attribute Builder contract. -/
def mandatoryKeys : List String :=
  ["airtouch.ac.id", "airtouch.ac.name", "airtouch.zone.id",
   "airtouch.zone.name", "airtouch.host", "airtouch.zone.powerState",
   "airtouch.zone.controlMethod", "airtouch.zone.spill",
   "airtouch.zone.lowBattery", "airtouch.aircon.powerState",
   "airtouch.aircon.activeMode", "airtouch.aircon.activeFanSpeed"]

/-- Written from the specification, for comparison with `builtAttrs`: the
exact key sequence the Attribute Builder must produce — the 12 mandatory
keys plus each optional key exactly when the corresponding source field is
present. -/
def expectedKeys (aircon : Aircon) (zone : Zone) : List String :=
  ["airtouch.ac.id", "airtouch.ac.name", "airtouch.zone.id",
   "airtouch.zone.name", "airtouch.host", "airtouch.zone.powerState",
   "airtouch.zone.controlMethod", "airtouch.zone.spill",
   "airtouch.zone.lowBattery"]
  ++ (if zone.target_temperature.isSome then ["airtouch.zone.setPoint"] else [])
  ++ (if zone.current_damper_percentage.isSome
        then ["airtouch.zone.openPercentage"] else [])
  ++ ["airtouch.aircon.powerState", "airtouch.aircon.activeMode",
      "airtouch.aircon.activeFanSpeed"]
  ++ (if aircon.current_temperature.isSome
        then ["airtouch.aircon.currentTemperature"] else [])
  ++ (if aircon.target_temperature.isSome
        then ["airtouch.aircon.targetTemperature"] else [])

/-- First zone of the worked example of the specification. -/
def sampleZone1 : Zone :=
  { zone_id := 0, name := some "Living", power_state := ZonePowerState.ON,
    control_method := some ZoneControlMethod.TEMP,
    current_temperature := some 21, target_temperature := some 22,
    current_damper_percentage := some 80, spill_active := false,
    low_battery := some false }

/-- Second zone of the worked example: no temperature reading. -/
def sampleZone2 : Zone :=
  { zone_id := 1, name := some "Bedroom", power_state := ZonePowerState.OFF,
    control_method := some ZoneControlMethod.DAMP,
    current_temperature := none, target_temperature := none,
    current_damper_percentage := some 0, spill_active := false,
    low_battery := none }

/-- Third zone of the worked example. -/
def sampleZone3 : Zone :=
  { zone_id := 2, name := some "Study", power_state := ZonePowerState.ON,
    control_method := some ZoneControlMethod.TEMP,
    current_temperature := some 23, target_temperature := some 24,
    current_damper_percentage := some 55, spill_active := true,
    low_battery := some false }

/-- Sub-unit of the worked example: three zones, the second without a
temperature reading. -/
def sampleAircon : Aircon :=
  { ac_id := 0, name := some "Main", power_state := AcPowerState.ON,
    active_mode := AcMode.COOL, active_fan_speed := AcFanSpeed.AUTO,
    current_temperature := some 24, target_temperature := some 22,
    zones := [sampleZone1, sampleZone2, sampleZone3] }

/-- Controller of the worked example. -/
def sampleAirTouch : AirTouch :=
  { name := "AirTouch5", host := "192.168.1.10",
    air_conditioners := [sampleAircon] }

/-- Zone whose `control_method` is `None` at runtime but whose temperature
is present: attribute building for it raises `AttributeError`. -/
def c3BadZone : Zone :=
  { zone_id := 0, name := some "Hall", power_state := ZonePowerState.ON,
    control_method := none,
    current_temperature := some 20, target_temperature := none,
    current_damper_percentage := none, spill_active := false,
    low_battery := none }

/-- Healthy sibling zone following the malformed one, with a present
temperature reading. -/
def c3GoodZone : Zone :=
  { zone_id := 1, name := some "Study", power_state := ZonePowerState.ON,
    control_method := some ZoneControlMethod.TEMP,
    current_temperature := some 23, target_temperature := some 22,
    current_damper_percentage := some 50, spill_active := false,
    low_battery := some false }

/-- Sub-unit holding the malformed zone followed by a healthy sibling. -/
def c3Aircon : Aircon :=
  { ac_id := 0, name := some "Upstairs", power_state := AcPowerState.ON,
    active_mode := AcMode.HEAT, active_fan_speed := AcFanSpeed.LOW,
    current_temperature := some 21, target_temperature := some 22,
    zones := [c3BadZone, c3GoodZone] }

/-- Controller holding `c3Aircon`. -/
def c3AirTouch : AirTouch :=
  { name := "AT5", host := "10.0.0.2", air_conditioners := [c3Aircon] }

/-- Minimal controller used to instantiate universally quantified
monitor-trace statements. -/
def c9AirTouch : AirTouch :=
  { name := "AT5-b", host := "10.0.0.3", air_conditioners := [] }

/-- Zone with an unset name and all optional fields absent, exercising
the "Zone-id" fallback and the omission of optional keys. -/
def c2Zone : Zone :=
  { zone_id := 4, name := none, power_state := ZonePowerState.OFF,
    control_method := some ZoneControlMethod.DAMP,
    current_temperature := some 19, target_temperature := none,
    current_damper_percentage := none, spill_active := false,
    low_battery := none }

/-- Sub-unit with an unset name and absent temperatures, exercising the
"AC-id" fallback and the omission of optional keys. -/
def c2Aircon : Aircon :=
  { ac_id := 7, name := none, power_state := AcPowerState.SLEEP,
    active_mode := AcMode.DRY, active_fan_speed := AcFanSpeed.QUIET,
    current_temperature := none, target_temperature := none,
    zones := [c2Zone] }

/-- Controller holding `c2Aircon`. -/
def c2AirTouch : AirTouch :=
  { name := "AT5-c", host := "10.0.0.4", air_conditioners := [c2Aircon] }

/-- The key sequence of the built attribute dict is exactly the
specification's `expectedKeys`, for every input. -/
theorem builtAttrs_keys (atch : AirTouch) (aircon : Aircon) (zone : Zone)
    (cm : ZoneControlMethod) :
    (builtAttrs atch aircon zone cm).map Prod.fst = expectedKeys aircon zone := by
  rcases zone with ⟨zid, zname, zps, zcm, zct, ztt, zdp, zsp, zlb⟩
  rcases aircon with ⟨aid, aname, aps, am, afs, act, att, azs⟩
  rcases ztt with _ | t1 <;> rcases zdp with _ | d1 <;>
    rcases act with _ | t2 <;> rcases att with _ | t3 <;>
    simp [builtAttrs, expectedKeys]

/-- Every mandatory key occurs in the expected key sequence. -/
theorem mandatory_mem_expectedKeys (aircon : Aircon) (zone : Zone) :
    ∀ k ∈ mandatoryKeys, k ∈ expectedKeys aircon zone := by
  rcases zone with ⟨zid, zname, zps, zcm, zct, ztt, zdp, zsp, zlb⟩
  rcases aircon with ⟨aid, aname, aps, am, afs, act, att, azs⟩
  rcases ztt with _ | t1 <;> rcases zdp with _ | d1 <;>
    rcases act with _ | t2 <;> rcases att with _ | t3 <;>
    simp [expectedKeys, mandatoryKeys]

/-- The zone set-point key is present exactly when the zone target
temperature is. -/
theorem setPoint_mem_expectedKeys (aircon : Aircon) (zone : Zone) :
    ("airtouch.zone.setPoint" ∈ expectedKeys aircon zone)
      ↔ zone.target_temperature.isSome := by
  rcases zone with ⟨zid, zname, zps, zcm, zct, ztt, zdp, zsp, zlb⟩
  rcases aircon with ⟨aid, aname, aps, am, afs, act, att, azs⟩
  rcases ztt with _ | t1 <;> rcases zdp with _ | d1 <;>
    rcases act with _ | t2 <;> rcases att with _ | t3 <;>
    simp [expectedKeys]

/-- The zone open-percentage key is present exactly when the damper
percentage is. -/
theorem openPercentage_mem_expectedKeys (aircon : Aircon) (zone : Zone) :
    ("airtouch.zone.openPercentage" ∈ expectedKeys aircon zone)
      ↔ zone.current_damper_percentage.isSome := by
  rcases zone with ⟨zid, zname, zps, zcm, zct, ztt, zdp, zsp, zlb⟩
  rcases aircon with ⟨aid, aname, aps, am, afs, act, att, azs⟩
  rcases ztt with _ | t1 <;> rcases zdp with _ | d1 <;>
    rcases act with _ | t2 <;> rcases att with _ | t3 <;>
    simp [expectedKeys]

/-- The sub-unit current-temperature key is present exactly when the
sub-unit current temperature is. -/
theorem airconCurrent_mem_expectedKeys (aircon : Aircon) (zone : Zone) :
    ("airtouch.aircon.currentTemperature" ∈ expectedKeys aircon zone)
      ↔ aircon.current_temperature.isSome := by
  rcases zone with ⟨zid, zname, zps, zcm, zct, ztt, zdp, zsp, zlb⟩
  rcases aircon with ⟨aid, aname, aps, am, afs, act, att, azs⟩
  rcases ztt with _ | t1 <;> rcases zdp with _ | d1 <;>
    rcases act with _ | t2 <;> rcases att with _ | t3 <;>
    simp [expectedKeys]

/-- The sub-unit target-temperature key is present exactly when the
sub-unit target temperature is. -/
theorem airconTarget_mem_expectedKeys (aircon : Aircon) (zone : Zone) :
    ("airtouch.aircon.targetTemperature" ∈ expectedKeys aircon zone)
      ↔ aircon.target_temperature.isSome := by
  rcases zone with ⟨zid, zname, zps, zcm, zct, ztt, zdp, zsp, zlb⟩
  rcases aircon with ⟨aid, aname, aps, am, afs, act, att, azs⟩
  rcases ztt with _ | t1 <;> rcases zdp with _ | d1 <;>
    rcases act with _ | t2 <;> rcases att with _ | t3 <;>
    simp [expectedKeys]

/-- On a list of well-formed zones the zone loop raises nothing and emits
exactly one sample per zone with a present temperature, in zone order,
with the zone temperature as the sample value. -/
theorem runZones_wf (atch : AirTouch) (aircon : Aircon) :
    ∀ zs : List Zone, (∀ z ∈ zs, z.control_method.isSome) →
      (runZones atch aircon zs).2 = none ∧
      (runZones atch aircon zs).1.map Sample.value
        = zs.filterMap Zone.current_temperature := by
  intro zs
  induction zs with
  | nil => intro _; exact ⟨rfl, rfl⟩
  | cons z rest ih =>
    intro h
    obtain ⟨cm, hcm⟩ := Option.isSome_iff_exists.mp (h z (List.mem_cons_self _ _))
    have ihr := ih (fun w hw => h w (List.mem_cons_of_mem _ hw))
    cases ht : z.current_temperature with
    | none =>
      simp [runZones, processZone, ht, List.filterMap_cons, ihr.1, ihr.2]
    | some t =>
      simp [runZones, processZone, ht, buildAttributes, Except.map, hcm,
        List.filterMap_cons, ihr.1, ihr.2]

/-- The zone loop on a prefix of well-formed zones followed by a
malformed zone with a present temperature: the samples of the prefix are
recorded, then the `AttributeError` escapes, and no zone after the
malformed one is processed. -/
theorem runZones_bad (atch : AirTouch) (aircon : Aircon) (zbad : Zone)
    (hbadcm : zbad.control_method = none)
    (hbadt : zbad.current_temperature.isSome) :
    ∀ zs1 zs2 : List Zone, (∀ z ∈ zs1, z.control_method.isSome) →
      (runZones atch aircon (zs1 ++ zbad :: zs2)).2 = some attributeErrorMsg ∧
      (runZones atch aircon (zs1 ++ zbad :: zs2)).1.map Sample.value
        = zs1.filterMap Zone.current_temperature := by
  intro zs1
  induction zs1 with
  | nil =>
    intro zs2 _
    obtain ⟨t, ht⟩ := Option.isSome_iff_exists.mp hbadt
    simp [runZones, processZone, ht, buildAttributes, Except.map, hbadcm]
  | cons z rest ih =>
    intro zs2 h
    obtain ⟨cm, hcm⟩ := Option.isSome_iff_exists.mp (h z (List.mem_cons_self _ _))
    have ihr := ih zs2 (fun w hw => h w (List.mem_cons_of_mem _ hw))
    cases ht : z.current_temperature with
    | none =>
      simpa [runZones, processZone, ht, List.filterMap_cons] using ihr
    | some t =>
      simp [runZones, processZone, ht, buildAttributes, Except.map, hcm,
        List.filterMap_cons, ihr.1, ihr.2]

/-- Under the positional-id invariant, a successful lookup at position `i`
yields the sub-unit whose identifier is `i`. -/
theorem positional_lookup_id (atch : AirTouch) (hpos : idsPositional atch)
    (i : Nat) (ac : Aircon)
    (hget : atch.air_conditioners.get? i = some ac) : ac.ac_id = i := by
  have hmap : (atch.air_conditioners.map Aircon.ac_id).get? i = some ac.ac_id := by
    rw [List.get?_map, hget]; rfl
  rw [idsPositional] at hpos
  rw [hpos] at hmap
  have hlt : i < atch.air_conditioners.length := (List.get?_eq_some.mp hget).1
  rw [List.get?_range hlt] at hmap
  exact (Option.some.inj hmap).symm

/-- Under the positional-id invariant, looking a member sub-unit up by its
own identifier returns that sub-unit. -/
theorem positional_lookup_mem (atch : AirTouch) (hpos : idsPositional atch)
    (ac : Aircon) (hmem : ac ∈ atch.air_conditioners) :
    atch.air_conditioners.get? ac.ac_id = some ac := by
  obtain ⟨⟨n, hlt⟩, hn⟩ := List.mem_iff_get.mp hmem
  have hget : atch.air_conditioners.get? n = some ac := by
    rw [List.get?_eq_get hlt]
    exact congrArg some hn
  have hid := positional_lookup_id atch hpos n ac hget
  rw [hid]
  exact hget

/-- Written from the specification, for comparison with `monitorLoop`: in
the Active state the monitor subscribes the handler on each sub-unit and
invokes it once per sub-unit, in order, then parks. -/
def expectedActiveTail (atch : AirTouch) : List Aircon → List MonitorEvent
  | [] => [MonitorEvent.park]
  | ac :: rest =>
    MonitorEvent.subscribeHandler ac.ac_id
      :: MonitorEvent.baselineInvoke ac.ac_id (onAcStatusUpdated atch ac.ac_id).1
      :: expectedActiveTail atch rest

/-- When no baseline handler invocation raises, the subscribe-and-baseline
loop produces exactly the expected event sequence and ends parked. -/
theorem monitorLoop_ok (atch : AirTouch) :
    ∀ acs : List Aircon,
      (∀ ac ∈ acs, (onAcStatusUpdated atch ac.ac_id).2 = none) →
      monitorLoop atch acs = (expectedActiveTail atch acs, none) := by
  intro acs
  induction acs with
  | nil => intro _; rfl
  | cons ac rest ih =>
    intro h
    have hac := h ac (List.mem_cons_self _ _)
    have ihr := ih (fun a ha => h a (List.mem_cons_of_mem _ ha))
    simp [monitorLoop, hac, expectedActiveTail, ihr]

/-- The subscribe-and-baseline loop never creates a gauge instrument. -/
theorem monitorLoop_no_gauge (atch : AirTouch) (g : String) :
    ∀ acs : List Aircon,
      MonitorEvent.createGauge g ∉ (monitorLoop atch acs).1 := by
  intro acs
  induction acs with
  | nil => simp [monitorLoop]
  | cons ac rest ih =>
    cases h : (onAcStatusUpdated atch ac.ac_id).2 with
    | none => simp [monitorLoop, h, ih]
    | some e => simp [monitorLoop, h]

/-- C1: a notification handled by the Zone Update Handler for a resolved
sub-unit with well-formed zones records exactly one sample per zone with a
present current temperature, in the sub-unit's zone order, each sample's
value being that zone's current temperature; zones with an absent current
temperature produce no sample, and no exception escapes. -/
theorem C1_zone_samples (atch : AirTouch) (ac_id : Nat) (aircon : Aircon)
    (hget : atch.air_conditioners.get? ac_id = some aircon)
    (hwf : ∀ z ∈ aircon.zones, z.control_method.isSome) :
    (onAcStatusUpdated atch ac_id).2 = none ∧
    (onAcStatusUpdated atch ac_id).1.map Sample.value
      = aircon.zones.filterMap Zone.current_temperature := by
  have hrw : onAcStatusUpdated atch ac_id = runZones atch aircon aircon.zones := by
    unfold onAcStatusUpdated
    rw [hget]
  rw [hrw]
  exact runZones_wf atch aircon aircon.zones hwf

/-- Witness for C1 at the specification's worked example: one sub-unit
with three zones whose middle zone lacks a temperature reading records
exactly the two samples 21 and 23, in zone order. -/
theorem C1_zone_samples_witness :
    (sampleAirTouch.air_conditioners.get? 0 = some sampleAircon ∧
      ∀ z ∈ sampleAircon.zones, z.control_method.isSome) ∧
    ((onAcStatusUpdated sampleAirTouch 0).2 = none ∧
      (onAcStatusUpdated sampleAirTouch 0).1.map Sample.value
        = sampleAircon.zones.filterMap Zone.current_temperature) :=
  ⟨⟨rfl, by decide⟩,
    C1_zone_samples sampleAirTouch 0 sampleAircon rfl (by decide)⟩

/-- C2: for every zone whose state is well formed (its control method is
an actual enum member), the Attribute Builder succeeds, its key sequence
is exactly the 12 mandatory keys plus each optional key exactly when the
corresponding source field is present, and the two name attributes use the
"AC-id" / "Zone-id" fallbacks when the names are unset. -/
theorem C2_attribute_builder (atch : AirTouch) (aircon : Aircon) (zone : Zone)
    (h : zone.control_method.isSome) :
    ∃ attrs, buildAttributes atch aircon zone = Except.ok attrs ∧
      attrs.map Prod.fst = expectedKeys aircon zone ∧
      (∀ k ∈ mandatoryKeys, k ∈ attrs.map Prod.fst) ∧
      (("airtouch.zone.setPoint" ∈ attrs.map Prod.fst)
        ↔ zone.target_temperature.isSome) ∧
      (("airtouch.zone.openPercentage" ∈ attrs.map Prod.fst)
        ↔ zone.current_damper_percentage.isSome) ∧
      (("airtouch.aircon.currentTemperature" ∈ attrs.map Prod.fst)
        ↔ aircon.current_temperature.isSome) ∧
      (("airtouch.aircon.targetTemperature" ∈ attrs.map Prod.fst)
        ↔ aircon.target_temperature.isSome) ∧
      attrs.lookup "airtouch.ac.name"
        = some (AttrValue.strVal (aircon.name.getD ("AC-" ++ toString aircon.ac_id))) ∧
      attrs.lookup "airtouch.zone.name"
        = some (AttrValue.strVal (zone.name.getD ("Zone-" ++ toString zone.zone_id))) := by
  obtain ⟨cm, hcm⟩ := Option.isSome_iff_exists.mp h
  refine ⟨builtAttrs atch aircon zone cm, ?_, builtAttrs_keys atch aircon zone cm,
    ?_, ?_, ?_, ?_, ?_, ?_, ?_⟩
  · simp [buildAttributes, hcm]
  · rw [builtAttrs_keys]
    exact mandatory_mem_expectedKeys aircon zone
  · rw [builtAttrs_keys]
    exact setPoint_mem_expectedKeys aircon zone
  · rw [builtAttrs_keys]
    exact openPercentage_mem_expectedKeys aircon zone
  · rw [builtAttrs_keys]
    exact airconCurrent_mem_expectedKeys aircon zone
  · rw [builtAttrs_keys]
    exact airconTarget_mem_expectedKeys aircon zone
  · rfl
  · rfl

/-- Witness for C2 at a concrete zone and sub-unit with unset names and
all optional fields absent. -/
theorem C2_attribute_builder_witness :
    c2Zone.control_method.isSome ∧
    (∃ attrs, buildAttributes c2AirTouch c2Aircon c2Zone = Except.ok attrs ∧
      attrs.map Prod.fst = expectedKeys c2Aircon c2Zone ∧
      (∀ k ∈ mandatoryKeys, k ∈ attrs.map Prod.fst) ∧
      (("airtouch.zone.setPoint" ∈ attrs.map Prod.fst)
        ↔ c2Zone.target_temperature.isSome) ∧
      (("airtouch.zone.openPercentage" ∈ attrs.map Prod.fst)
        ↔ c2Zone.current_damper_percentage.isSome) ∧
      (("airtouch.aircon.currentTemperature" ∈ attrs.map Prod.fst)
        ↔ c2Aircon.current_temperature.isSome) ∧
      (("airtouch.aircon.targetTemperature" ∈ attrs.map Prod.fst)
        ↔ c2Aircon.target_temperature.isSome) ∧
      attrs.lookup "airtouch.ac.name"
        = some (AttrValue.strVal
            (c2Aircon.name.getD ("AC-" ++ toString c2Aircon.ac_id))) ∧
      attrs.lookup "airtouch.zone.name"
        = some (AttrValue.strVal
            (c2Zone.name.getD ("Zone-" ++ toString c2Zone.zone_id)))) :=
  ⟨rfl, C2_attribute_builder c2AirTouch c2Aircon c2Zone rfl⟩

/-- C3 counterexample: with a sub-unit whose first zone makes attribute
building raise and whose second zone is healthy with a present
temperature, the handler propagates the exception and records no sample
at all — in particular the healthy sibling zone is not processed, so the
claim that the exception is not propagated and every sibling is still
processed is false on the code. -/
theorem C3_counterexample :
    (onAcStatusUpdated c3AirTouch 0).2 = some attributeErrorMsg ∧
    (onAcStatusUpdated c3AirTouch 0).1 = [] := by
  constructor <;> rfl

/-- C3 amended: an exception raised while building one zone's attributes
propagates out of the Zone Update Handler; the zones preceding the failed
one in zone order have already had their samples recorded, and the failed
zone and all its later siblings produce no samples. -/
theorem C3_amended (atch : AirTouch) (ac_id : Nat) (aircon : Aircon)
    (zs1 zs2 : List Zone) (zbad : Zone)
    (hget : atch.air_conditioners.get? ac_id = some aircon)
    (hzones : aircon.zones = zs1 ++ zbad :: zs2)
    (h1 : ∀ z ∈ zs1, z.control_method.isSome)
    (hbadcm : zbad.control_method = none)
    (hbadt : zbad.current_temperature.isSome) :
    (onAcStatusUpdated atch ac_id).2 = some attributeErrorMsg ∧
    (onAcStatusUpdated atch ac_id).1.map Sample.value
      = zs1.filterMap Zone.current_temperature := by
  have hrw : onAcStatusUpdated atch ac_id = runZones atch aircon aircon.zones := by
    unfold onAcStatusUpdated
    rw [hget]
  rw [hrw, hzones]
  exact runZones_bad atch aircon zbad hbadcm hbadt zs1 zs2 h1

/-- Witness for C3 amended at the concrete two-zone sub-unit: the
malformed zone is first, so no sample is recorded and the error
escapes. -/
theorem C3_amended_witness :
    (c3AirTouch.air_conditioners.get? 0 = some c3Aircon ∧
      c3Aircon.zones = [] ++ c3BadZone :: [c3GoodZone] ∧
      c3BadZone.control_method = none ∧
      c3BadZone.current_temperature.isSome) ∧
    ((onAcStatusUpdated c3AirTouch 0).2 = some attributeErrorMsg ∧
      (onAcStatusUpdated c3AirTouch 0).1.map Sample.value
        = List.filterMap Zone.current_temperature []) :=
  ⟨⟨rfl, rfl, rfl, rfl⟩,
    C3_amended c3AirTouch 0 c3Aircon [] [c3GoodZone] c3BadZone rfl rfl
      (by simp) rfl rfl⟩

/-- C4 counterexample: with two supervised monitor tasks where the first
to finish fails with an unhandled error, the task group gives the sibling
final status cancelled, not completed — so the claim that the group does
not cancel the remaining sibling monitors and that every sibling keeps
running is false on the code. -/
theorem C4_counterexample :
    taskGroupFinal [false, true] = [TaskFinal.failed, TaskFinal.cancelled] ∧
    taskGroupFinal [false, true] ≠ [TaskFinal.failed, TaskFinal.completed] := by
  decide

/-- C4 amended: when one Device Monitor task fails with an unhandled
error, the supervising task group cancels every sibling task still
running; only siblings that already finished are unaffected. -/
theorem C4_amended (rest : List Bool) :
    taskGroupFinal (false :: rest)
      = TaskFinal.failed :: rest.map (fun _ => TaskFinal.cancelled) := rfl

/-- C5 counterexample: a run with the credential present and zero devices
discovered exits with status 0, not a non-zero status, and is therefore
also not distinguishable from the credential-failure exit status, which is
0 as well — so the claimed distinct non-zero exit codes are false on the
code. -/
theorem C5_counterexample :
    processExitCode true 0 RunEnding.interrupt = 0 ∧
    processExitCode false 3 RunEnding.interrupt = 0 := by
  decide

/-- C5 amended: the process exits with status 0 in every scenario — clean
operator shutdown, missing credential, zero devices discovered, and
unexpected unhandled error alike; the script never calls sys.exit, so no
distinct non-zero exit codes exist. -/
theorem C5_amended (keyPresent : Bool) (deviceCount : Nat)
    (ending : RunEnding) :
    processExitCode keyPresent deviceCount ending = 0 := by
  cases ending <;> unfold processExitCode <;> split_ifs <;> rfl

/-- C6: when the telemetry credential is missing, main raises before any
event is emitted — in particular discovery is never called — and in every
run in which discovery is called, the export pipeline was successfully
constructed at an earlier position of the trace. -/
theorem C6_pipeline_before_discovery :
    (∀ d, MainEvent.discoverCall ∉ (mainTrace false d).1 ∧
      (mainTrace false d).2 = some valueErrorMsg) ∧
    (∀ k d i, (mainTrace k d).1.get? i = some MainEvent.discoverCall →
      ∃ j, j < i ∧ (mainTrace k d).1.get? j = some MainEvent.setupPipelineOk) := by
  constructor
  · intro d
    simp [mainTrace]
  · intro k d i hi
    cases k with
    | false => simp [mainTrace] at hi
    | true =>
      refine ⟨0, ?_, by simp [mainTrace]⟩
      cases i with
      | zero => simp [mainTrace] at hi
      | succ n => exact Nat.succ_pos n

/-- Witness for C6: in the run with the credential present and two
devices, discovery is the second event and pipeline construction precedes
it. -/
theorem C6_pipeline_before_discovery_witness :
    (mainTrace true 2).1.get? 1 = some MainEvent.discoverCall ∧
    ∃ j, j < 1 ∧ (mainTrace true 2).1.get? j = some MainEvent.setupPipelineOk :=
  ⟨rfl, C6_pipeline_before_discovery.2 true 2 1 rfl⟩

/-- C7: a Device Monitor whose controller initialization returns failure
logs one error identifying the controller by name and host and ends its
own task normally — one init call (no retry), no gauge, no subscription,
no parking — and since it finishes without raising, the supervising group
leaves sibling tasks untouched, so a failing and a succeeding controller
leave exactly the successful monitor active. -/
theorem C7_init_failure (atch : AirTouch) :
    monitorTrace atch false
      = ([MonitorEvent.initCall,
          MonitorEvent.initFailedLog (atch.name ++ " (" ++ atch.host ++ ")")],
         none) ∧
    (∀ rest : List Bool,
      taskGroupFinal (true :: rest) = TaskFinal.completed :: taskGroupFinal rest) :=
  ⟨rfl, fun _ => rfl⟩

/-- C8: for a controller whose initialization succeeds, with positional
sub-unit ids and well-formed zones, the Device Monitor emits exactly this
event sequence: init, gauge creation, then for each owned sub-unit in
order a handler subscription immediately followed by one synchronous
baseline handler invocation (emitting that sub-unit's baseline samples),
and finally the indefinite park — with no exception escaping. -/
theorem C8_active_baseline (atch : AirTouch) (hpos : idsPositional atch)
    (hwf : ∀ ac ∈ atch.air_conditioners, ∀ z ∈ ac.zones, z.control_method.isSome) :
    monitorTrace atch true
      = (MonitorEvent.initCall :: MonitorEvent.createGauge gaugeName
           :: expectedActiveTail atch atch.air_conditioners, none) := by
  have h : ∀ ac ∈ atch.air_conditioners, (onAcStatusUpdated atch ac.ac_id).2 = none := by
    intro ac hmem
    have hget := positional_lookup_mem atch hpos ac hmem
    have hrw : onAcStatusUpdated atch ac.ac_id = runZones atch ac ac.zones := by
      unfold onAcStatusUpdated
      rw [hget]
    rw [hrw]
    exact (runZones_wf atch ac ac.zones (hwf ac hmem)).1
  simp [monitorTrace, monitorLoop_ok atch atch.air_conditioners h]

/-- Witness for C8 at the worked example controller. -/
theorem C8_active_baseline_witness :
    (idsPositional sampleAirTouch ∧
      ∀ ac ∈ sampleAirTouch.air_conditioners, ∀ z ∈ ac.zones,
        z.control_method.isSome) ∧
    monitorTrace sampleAirTouch true
      = (MonitorEvent.initCall :: MonitorEvent.createGauge gaugeName
           :: expectedActiveTail sampleAirTouch sampleAirTouch.air_conditioners,
         none) :=
  ⟨⟨by decide, by decide⟩,
    C8_active_baseline sampleAirTouch (by decide) (by decide)⟩

/-- C9 counterexample: the gauge instrument is not obtained once at
startup before any monitor runs — a running Device Monitor itself creates
a gauge instrument as its second step, while the startup trace of main
contains no gauge creation at all.  This falsifies the claim that no
Device Monitor creates its own gauge instrument. -/
theorem C9_counterexample :
    (monitorTrace sampleAirTouch true).1.get? 1
      = some (MonitorEvent.createGauge gaugeName) ∧
    MainEvent.createGaugeEv ∉ (mainTrace true 1).1 := by
  constructor
  · rfl
  · decide

/-- C9 amended: the meter is obtained once at startup and shared, but the
gauge instrument is not: main itself creates no gauge, each Device
Monitor whose initialization succeeds creates its own gauge instrument
(named airtouch.zone.temperature) exactly once, directly after the init
call, and a monitor whose initialization fails creates none. -/
theorem C9_amended (atch : AirTouch) :
    (∀ k d, MainEvent.createGaugeEv ∉ (mainTrace k d).1) ∧
    (monitorTrace atch true).1
      = MonitorEvent.initCall :: MonitorEvent.createGauge gaugeName
          :: (monitorLoop atch atch.air_conditioners).1 ∧
    (∀ g, MonitorEvent.createGauge g ∉ (monitorLoop atch atch.air_conditioners).1) ∧
    (∀ g, MonitorEvent.createGauge g ∉ (monitorTrace atch false).1) := by
  refine ⟨?_, ?_, ?_, ?_⟩
  · intro k d
    cases k <;> simp [mainTrace]
  · simp [monitorTrace]
  · intro g
    exact monitorLoop_no_gauge atch g atch.air_conditioners
  · intro g
    simp [monitorTrace]

/-- Witness for C9 amended at the minimal controller. -/
theorem C9_amended_witness :
    (monitorTrace c9AirTouch true).1
      = MonitorEvent.initCall :: MonitorEvent.createGauge gaugeName
          :: (monitorLoop c9AirTouch c9AirTouch.air_conditioners).1 ∧
    MonitorEvent.createGauge gaugeName
      ∉ (monitorLoop c9AirTouch c9AirTouch.air_conditioners).1 :=
  ⟨(C9_amended c9AirTouch).2.1, (C9_amended c9AirTouch).2.2.1 gaugeName⟩

/-- C10: the Zone Update Handler resolves the notified sub-unit by
positional indexing into the ordered air_conditioners sequence: an out-of
range identifier raises an uncaught IndexError before any zone is
processed, and under the precondition that every sub-unit identifier
equals its position, a successful lookup processes exactly the sub-unit
whose identifier is the notified value. -/
theorem C10_positional_lookup :
    (∀ (atch : AirTouch) (i : Nat), atch.air_conditioners.length ≤ i →
      onAcStatusUpdated atch i = ([], some indexErrorMsg)) ∧
    (∀ (atch : AirTouch) (i : Nat) (ac : Aircon), idsPositional atch →
      atch.air_conditioners.get? i = some ac →
      ac.ac_id = i ∧ onAcStatusUpdated atch i = runZones atch ac ac.zones) := by
  constructor
  · intro atch i hlen
    have hnone : atch.air_conditioners.get? i = none := List.get?_eq_none.mpr hlen
    unfold onAcStatusUpdated
    rw [hnone]
  · intro atch i ac hpos hget
    refine ⟨positional_lookup_id atch hpos i ac hget, ?_⟩
    unfold onAcStatusUpdated
    rw [hget]

/-- Witness for C10: index 5 is out of range for the worked example
controller and raises IndexError; index 0 resolves its own sub-unit. -/
theorem C10_positional_lookup_witness :
    (sampleAirTouch.air_conditioners.length ≤ 5 ∧
      onAcStatusUpdated sampleAirTouch 5 = ([], some indexErrorMsg)) ∧
    (idsPositional sampleAirTouch ∧
      sampleAirTouch.air_conditioners.get? 0 = some sampleAircon ∧
      (sampleAircon.ac_id = 0 ∧
        onAcStatusUpdated sampleAirTouch 0
          = runZones sampleAirTouch sampleAircon sampleAircon.zones)) :=
  ⟨⟨by decide, C10_positional_lookup.1 sampleAirTouch 5 (by decide)⟩,
    ⟨by decide, rfl,
      C10_positional_lookup.2 sampleAirTouch 0 sampleAircon (by decide) rfl⟩⟩

end AirtouchExporter
